import Mathlib

/-
Verification of the slog logging engine (src/general_utils/slog.py) against
its natural-language specification.  The definitions below are a shallow
embedding of the Python source: handler objects are represented by Nat
identities, messages by String, levels by Int, and the mutable module-level
caches by explicit state records threaded through the functions.
-/

namespace Slog

/-- Logging levels, slog.py lines 55 to 67. -/
def NO_ACTION : Int := -1

/-- Level EXCEPTION, slog.py line 57. -/
def EXCEPTION : Int := 0

/-- Level ERROR, slog.py line 59. -/
def ERROR : Int := 1

/-- Level WARNING, slog.py line 61. -/
def WARNING : Int := 2

/-- Level INFO, slog.py line 63. -/
def INFO : Int := 3

/-- Level DEBUG, slog.py line 65. -/
def DEBUG : Int := 4

/-- Level ALWAYS_HANDLE, slog.py line 67. -/
def ALWAYS_HANDLE : Int := 5

/-- Default verbosity, slog.py line 80. -/
def DEFAULT_VERBOSITY : Int := 3

/-- Logger.write broadcasts with level=-1, slog.py lines 460 to 463. -/
def WRITE_LEVEL : Int := -1

/-- The keys of Handler.verb_map, slog.py lines 483 to 489.  A dispatch
lookup for a level outside this list raises a KeyError. -/
def verbMapKeys : List Int := [99, 4, 3, 2, 1, 0, -1]

/-- The per-call configuration of a Logger instance that the broadcast
algorithm reads: Logger.__init__, slog.py lines 194 to 219. -/
structure LoggerState where
  name : String
  level : Int
  levelExclusive : Bool
  overridesSubmoduleLevel : Bool
  borrowLevelFrom : Option String
  standalone : Bool
  deriving DecidableEq

/-- Dictionary lookup in the module-level _logger_cache, slog.py line 86,
modelled as an association list keyed by logger name. -/
def lookupLogger (cache : List (String × LoggerState)) (nm : String) :
    Option LoggerState :=
  (cache.find? (fun p => p.1 == nm)).map (fun p => p.2)

/-- The correct first-occurrence deduplication of the supermodule name list,
slog.py lines 348 to 351 (this comprehension adds the loop variable itself
to the visited set, so it really does deduplicate). -/
def dedupFirst (seen : List String) : List String → List String
  | [] => []
  | m :: ms =>
    if m ∈ seen then dedupFirst seen ms
    else m :: dedupFirst (m :: seen) ms

/-- The supermodule name list: the module trace of the calling frame, from
most local to most global, with the literal main module appended when the
logger itself is not the main logger, slog.py lines 340 to 344. -/
def supermoduleNames (selfLookup : String) (modTrace : List String) :
    List String :=
  if selfLookup = "__main__" then modTrace else modTrace ++ ["__main__"]

/-- The resolved chain of enclosing-scope loggers: deduplicate the module
names, look each up in the logger cache, and keep only the non-standalone
loggers, slog.py lines 346 to 356.  Order is preserved, most local first,
most global last. -/
def resolveChain (cache : List (String × LoggerState)) (selfLookup : String)
    (modTrace : List String) : List LoggerState :=
  ((dedupFirst [] (supermoduleNames selfLookup modTrace)).filterMap
      (lookupLogger cache)).filter (fun sl => !sl.standalone)

/-- Level resolution in Logger.broadcast, slog.py lines 378 to 397.  The
source checks borrow_level_from FIRST: only when it is unset does it look
for chain loggers with overrides_submodule_level, taking the last (most
global) one; a set but unresolvable borrow name falls back to the logger
itself. -/
def resolveLevel (self : LoggerState) (cache : List (String × LoggerState))
    (superloggers : List LoggerState) : Int × Bool :=
  match self.borrowLevelFrom with
  | none =>
    match (superloggers.filter (fun sl => sl.overridesSubmoduleLevel)).getLast? with
    | some o => (o.level, o.levelExclusive)
    | none => (self.level, self.levelExclusive)
  | some nm =>
    match lookupLogger cache nm with
    | some b => (b.level, b.levelExclusive)
    | none => (self.level, self.levelExclusive)

/-- The logger level filter in Logger.broadcast, slog.py lines 399 to 403:
exclusive mode suppresses any message level different from the resolved
level, non-exclusive mode suppresses message levels above it. -/
def levelFilterSuppresses (levelExclusive : Bool) (loggerLevel msgLevel : Int) :
    Bool :=
  if levelExclusive then decide (msgLevel ≠ loggerLevel)
  else decide (msgLevel > loggerLevel)

/-- Equality test between members of the visited set of the broadcast
duplicate-removal comprehensions: a handler (left, by Nat identity) is
never equal to a module name (right, a String), matching the Python
equality between a handler object and a str. -/
def visitedEq : (Nat ⊕ String) → (Nat ⊕ String) → Bool
  | Sum.inl a, Sum.inl b => a == b
  | Sum.inr a, Sum.inr b => a == b
  | _, _ => false

/-- Membership test in the visited set. -/
def visitedContains (visited : List (Nat ⊕ String)) (x : Nat ⊕ String) :
    Bool :=
  visited.any (visitedEq x)

/-- The duplicate-removal comprehension of Logger.broadcast, slog.py lines
366 to 370 and 413 to 417.  As written in the source, the element added to
the visited set is the stale loop variable sm (a module name String left
over from the supermodule comprehension), not the handler: the visited set
only ever holds module names, while the membership test compares handlers.
Handlers are modelled as Nat identities, the visited set as a list over
Nat with String on the right summand so that the heterogeneous membership
test of the source is expressible. -/
def pyFilterDups (sm : String) : List Nat → List (Nat ⊕ String) → List Nat
  | [], _ => []
  | bp :: rest, visited =>
    if visitedContains visited (Sum.inl bp) then pyFilterDups sm rest visited
    else bp :: pyFilterDups sm rest (Sum.inr sm :: visited)

/-- The bypass pass handler list of Logger.broadcast, slog.py lines 362 to
370: flatten the bypass handler lists of the resolved chain and, when the
result is non-empty, run the duplicate-removal comprehension over it. -/
def buildBypassHandlers (chainBypass : List (List Nat)) (sm : String) :
    List Nat :=
  if (chainBypass.flatten).isEmpty then []
  else pyFilterDups sm (chainBypass.flatten) []

/-- The normal pass handler list of Logger.broadcast, slog.py lines 405 to
417: the flattened handler lists of the chain loggers when the chain is
non-empty, else the own handlers of the broadcasting logger, then the
duplicate-removal comprehension. -/
def buildNormalHandlers (selfHandlers : List Nat)
    (chainHandlers : List (List Nat)) (sm : String) : List Nat :=
  pyFilterDups sm
    (if chainHandlers.isEmpty then selfHandlers else chainHandlers.flatten) []

/-- The level attribute set by Handler.__init__, slog.py line 482: the
source line is level if level else 100, so both an omitted level and the
falsy level 0 yield 100. -/
def handlerInitLevel : Option Int → Int
  | none => 100
  | some l => if l = 0 then 100 else l

/-- The configuration of a Handler read by its call operator,
Handler.__init__, slog.py lines 476 to 482. -/
structure HandlerCfg where
  alwaysEvaluate : Bool
  levelExclusive : Bool
  level : Int
  deriving DecidableEq

/-- The self filter of Handler.__call__, slog.py lines 498 to 501. -/
def handlerSuppresses (cfg : HandlerCfg) (msgLevel : Int) : Bool :=
  if cfg.alwaysEvaluate then false
  else if !cfg.levelExclusive && decide (msgLevel > cfg.level) then true
  else if cfg.levelExclusive && decide (msgLevel ≠ cfg.level) then true
  else false

/-- Whether the per-level action of a Handler runs for a message,
Handler.__call__, slog.py lines 498 to 506: the filter must pass and the
verb_map lookup must not raise a KeyError. -/
def handlerActionRuns (cfg : HandlerCfg) (msgLevel : Int) : Bool :=
  !handlerSuppresses cfg msgLevel && verbMapKeys.contains msgLevel

/-- A Handler whose constructor received no explicit level and no flags,
Handler.__init__, slog.py lines 476 to 482. -/
def defaultHandlerConfig : HandlerCfg :=
  { alwaysEvaluate := false, levelExclusive := false,
    level := handlerInitLevel none }

/-- A handler whose side-effecting action may raise, for the broadcast loop
of slog.py lines 425 to 427 together with Handler.__call__, lines 491 to
506, neither of which contains a try block around the action. -/
structure ExnHandler where
  hid : Nat
  raises : Bool
  deriving DecidableEq

/-- One pass of the broadcast handler loop, slog.py lines 425 to 427:
invoke each handler in order; the first raising action aborts the loop and
the exception leaves broadcast.  Returns the identities of the handlers
whose action ran, and the identity of the raising handler if any. -/
def runHandlerPass : List ExnHandler → List Nat × Option Nat
  | [] => ([], none)
  | h :: t =>
    if h.raises then ([h.hid], some h.hid)
    else (h.hid :: (runHandlerPass t).1, (runHandlerPass t).2)

/-- The cache attribute of a DeferredHandler over its lifetime: a deque
with an optional maxlen as created by DeferredHandler.__init__, slog.py
line 583, or the plain Python list that dump assigns at slog.py line 590. -/
inductive PyCache where
  | deque (maxlen : Option Nat) (entries : List (String × Int))
  | plain (entries : List (String × Int))
  deriving DecidableEq

/-- The entries currently held by the cache, oldest first. -/
def PyCache.entries : PyCache → List (String × Int)
  | .deque _ es => es
  | .plain es => es

/-- Append on a Python deque with an optional maxlen: a full bounded deque
evicts from the left, a zero-capacity deque discards the new element, an
unbounded deque just appends. -/
def dequeAppend (maxlen : Option Nat) (es : List (String × Int))
    (x : String × Int) : List (String × Int) :=
  match maxlen with
  | none => es ++ [x]
  | some k =>
    if k = 0 then es
    else if (es ++ [x]).length > k then
      (es ++ [x]).drop ((es ++ [x]).length - k)
    else es ++ [x]

/-- Application of an optional formatter to a message, as in
DeferredHandler.__call__, slog.py lines 594 to 595. -/
def applyFormatter (formatter : Option (String → Int → String))
    (message : String) (level : Int) : String :=
  match formatter with
  | some f => f message level
  | none => message

/-- DeferredHandler.__call__, slog.py lines 592 to 596: when the message
level is one of the cache levels, apply the formatter if present and append
the pair to the cache, with deque or plain-list append semantics according
to what the cache currently is. -/
def deferredInvoke (cacheLevels : List Int)
    (formatter : Option (String → Int → String)) (cache : PyCache)
    (message : String) (level : Int) : PyCache :=
  if level ∈ cacheLevels then
    match cache with
    | .deque mx es =>
      .deque mx (dequeAppend mx es (applyFormatter formatter message level, level))
    | .plain es => .plain (es ++ [(applyFormatter formatter message level, level)])
  else cache

/-- The delivery loop of DeferredHandler.dump, slog.py lines 587 to 589:
each cached pair is passed verbatim to the verb_map method for its level;
a level outside verb_map raises a KeyError, aborting the loop.  Returns
the delivered pairs in order and whether the loop completed. -/
def dumpDeliver : List (String × Int) → List (String × Int) × Bool
  | [] => ([], true)
  | (m, l) :: rest =>
    if l ∈ verbMapKeys then
      ((m, l) :: (dumpDeliver rest).1, (dumpDeliver rest).2)
    else ([], false)

/-- DeferredHandler.dump, slog.py lines 585 to 590: deliver the cached
entries, then assign a plain empty Python list to the cache attribute; when
the loop raised, the assignment is never reached and the cache is
unchanged. -/
def deferredDump (cache : PyCache) : List (String × Int) × PyCache :=
  ((dumpDeliver cache.entries).1,
    if (dumpDeliver cache.entries).2 then PyCache.plain [] else cache)

/-- The module-level state of the threaded file writer: the cached_queues
dictionary (slog.py line 733), the cached_threads dictionary (line 738),
and a count of worker threads ever started.  Queues are identified by
their path key; thread values are Nat identities. -/
structure FileThreadState where
  cachedQueues : List String
  cachedThreads : List (String × Nat)
  threadsStarted : Nat
  deriving DecidableEq

/-- get_file_queue, slog.py lines 734 to 735: setdefault creates the queue
for a path exactly once. -/
def get_file_queue (filename : String) (s : FileThreadState) :
    FileThreadState :=
  if filename ∈ s.cachedQueues then s
  else { s with cachedQueues := s.cachedQueues ++ [filename] }

/-- get_file_thread, slog.py lines 740 to 748: return the cached thread if
the path is a key of cached_threads, else start a new worker thread.  As
written in the source, the new thread is never stored into cached_threads
before being returned. -/
def get_file_thread (filename : String) (s : FileThreadState) :
    FileThreadState :=
  if (s.cachedThreads.find? (fun p => p.1 == filename)).isSome then s
  else { s with threadsStarted := s.threadsStarted + 1 }

/-- The state effect of FileLogHandler.handle, slog.py lines 657 to 665:
get the queue for the path, then get the thread for the path. -/
def fileHandle (filename : String) (s : FileThreadState) : FileThreadState :=
  get_file_thread filename (get_file_queue filename s)

/-- The alternate_root context manager, slog.py lines 751 to 757.  Loggers
are modelled by Nat.  The argument binding is the logger bound to the main
key immediately before the scope is entered.  The source saves the module
global root_logger (rootGlobal) rather than that binding, assigns the new
logger, runs the body (which receives the current binding and returns a
raised flag plus the binding it leaves behind), and, only on a normal
completion, assigns the saved rootGlobal back; there is no try or finally,
so on an exception the assignment at line 757 never runs.  Returns the
raised flag and the binding after the scope. -/
def alternate_root (rootGlobal binding newLogger : Nat)
    (body : Nat → Bool × Nat) : Bool × Nat :=
  if (body newLogger).1 then (true, (body newLogger).2)
  else (false, rootGlobal)

/-- The standalone branch of Logger.broadcast, slog.py lines 326 to 332:
apply positional substitution when args are present, then call every
handler in handlers followed by every handler in bypass_handlers with the
resulting message.  The formatter attribute of the logger is not consulted
in this branch.  Returns the invocation list as pairs of handler identity
and the message it received. -/
def standaloneBroadcast (handlers bypassHandlers : List Nat) (hasArgs : Bool)
    (fmtArgs : String → String) (formatter : Option (String → Int → String))
    (message : String) (level : Int) : List (Nat × String) :=
  (handlers ++ bypassHandlers).map
    (fun h => (h, if hasArgs then fmtArgs message else message))

/-- Concrete logger that borrows its level from B, for the C1 scenario. -/
def cexA : LoggerState :=
  { name := "A", level := 3, levelExclusive := false,
    overridesSubmoduleLevel := false, borrowLevelFrom := some "B",
    standalone := false }

/-- Concrete logger B, the borrow target in the C1 scenario. -/
def cexB : LoggerState :=
  { name := "B", level := 4, levelExclusive := false,
    overridesSubmoduleLevel := false, borrowLevelFrom := none,
    standalone := false }

/-- Concrete enclosing logger with overrides_submodule_level set, for the
C1 scenario. -/
def cexO : LoggerState :=
  { name := "O", level := 1, levelExclusive := false,
    overridesSubmoduleLevel := true, borrowLevelFrom := none,
    standalone := false }

/-- Concrete root logger for the C1 scenario. -/
def cexRoot : LoggerState :=
  { name := "__main__", level := 3, levelExclusive := false,
    overridesSubmoduleLevel := false, borrowLevelFrom := none,
    standalone := false }

/-- Concrete logger cache for the C1 scenario. -/
def cexCache : List (String × LoggerState) :=
  [("A", cexA), ("B", cexB), ("O", cexO), ("__main__", cexRoot)]

/-- The resolved enclosing chain for a broadcast by cexA whose call site has
module trace A then O. -/
def cexChain : List LoggerState := resolveChain cexCache "A" ["A", "O"]

/-- Concrete logger in exclusive mode at level INFO, for the C3 scenario. -/
def cexExclusiveLogger : LoggerState :=
  { name := "X", level := 3, levelExclusive := true,
    overridesSubmoduleLevel := false, borrowLevelFrom := none,
    standalone := false }

end Slog

namespace Slog

theorem visitedContains_inl_false (visited : List (Nat ⊕ String)) (bp : Nat)
    (h : ∀ x ∈ visited, x.isRight = true) :
    visitedContains visited (Sum.inl bp) = false := by
  simp only [visitedContains, List.any_eq_false]
  intro v hv
  have hr := h v hv
  cases v with
  | inl a => simp [Sum.isRight] at hr
  | inr a => simp [visitedEq]

theorem pyFilterDups_keeps_all (sm : String) (l : List Nat) :
    ∀ visited : List (Nat ⊕ String),
      (∀ x ∈ visited, x.isRight = true) → pyFilterDups sm l visited = l := by
  induction l with
  | nil => intro visited _; rfl
  | cons bp rest ih =>
    intro visited h
    have hmem := visitedContains_inl_false visited bp h
    rw [pyFilterDups, hmem]
    simp only [Bool.false_eq_true, if_false]
    have hrest : pyFilterDups sm rest (Sum.inr sm :: visited) = rest := by
      apply ih
      intro x hx
      rcases List.mem_cons.mp hx with h1 | h2
      · subst h1; rfl
      · exact h _ h2
    rw [hrest]

theorem mem_dequeAppend {maxlen : Option Nat} {es : List (String × Int)}
    {x e : String × Int} (h : e ∈ dequeAppend maxlen es x) :
    e ∈ es ∨ e = x := by
  cases maxlen with
  | none =>
    simp only [dequeAppend] at h
    rcases List.mem_append.mp h with h1 | h1
    · exact Or.inl h1
    · exact Or.inr (List.mem_singleton.mp h1)
  | some k =>
    simp only [dequeAppend] at h
    by_cases hk : k = 0
    · rw [if_pos hk] at h
      exact Or.inl h
    · rw [if_neg hk] at h
      have h2 : e ∈ es ++ [x] := by
        by_cases hl : (es ++ [x]).length > k
        · rw [if_pos hl] at h
          exact List.mem_of_mem_drop h
        · rw [if_neg hl] at h
          exact h
      rcases List.mem_append.mp h2 with h1 | h1
      · exact Or.inl h1
      · exact Or.inr (List.mem_singleton.mp h1)

theorem dumpDeliver_all_good (es : List (String × Int)) :
    (∀ x ∈ es, x.2 ∈ verbMapKeys) → (dumpDeliver es).1 = es := by
  induction es with
  | nil => intro _; rfl
  | cons a t ih =>
    intro hes
    obtain ⟨am, al⟩ := a
    have ha : al ∈ verbMapKeys := by
      have := hes (am, al) (List.mem_cons_self _ _)
      simpa using this
    simp only [dumpDeliver, if_pos ha]
    have ht : (dumpDeliver t).1 = t := by
      apply ih
      intro x hx
      exact hes x (List.mem_cons_of_mem _ hx)
    rw [ht]

/-- Claim C1, counterexample: in a broadcast by cexA (which has
borrowLevelFrom set to B) over a chain containing the overriding logger
cexO, the source resolves the level from B, not from the overrider, and the
two policies disagree observably on an INFO message. -/
theorem C1_borrow_beats_override_cex :
    cexChain.filter (fun sl => sl.overridesSubmoduleLevel) = [cexO] ∧
    resolveLevel cexA cexCache cexChain = (cexB.level, cexB.levelExclusive) ∧
    resolveLevel cexA cexCache cexChain ≠ (cexO.level, cexO.levelExclusive) ∧
    levelFilterSuppresses cexO.levelExclusive cexO.level INFO = true ∧
    levelFilterSuppresses (resolveLevel cexA cexCache cexChain).2
      (resolveLevel cexA cexCache cexChain).1 INFO = false := by
  decide

/-- Claim C1, amended: borrowLevelFrom takes precedence.  When it is set
and the named logger exists, that logger governs; when it is set but
unresolvable, the logger itself governs; only when it is unset does the
most-global chain logger with overridesSubmoduleLevel govern, and absent
any overrider the logger itself governs. -/
theorem C1_level_resolution_amended (self : LoggerState)
    (cache : List (String × LoggerState)) (chain : List LoggerState)
    (o b : LoggerState) (nm : String) :
    (self.borrowLevelFrom = some nm → lookupLogger cache nm = some b →
      resolveLevel self cache chain = (b.level, b.levelExclusive)) ∧
    (self.borrowLevelFrom = some nm → lookupLogger cache nm = none →
      resolveLevel self cache chain = (self.level, self.levelExclusive)) ∧
    (self.borrowLevelFrom = none →
      (chain.filter (fun sl => sl.overridesSubmoduleLevel)).getLast? = some o →
      resolveLevel self cache chain = (o.level, o.levelExclusive)) ∧
    (self.borrowLevelFrom = none →
      (chain.filter (fun sl => sl.overridesSubmoduleLevel)).getLast? = none →
      resolveLevel self cache chain = (self.level, self.levelExclusive)) := by
  refine ⟨?_, ?_, ?_, ?_⟩ <;> intro h1 h2 <;> simp [resolveLevel, h1, h2]

/-- Claim C1, witness for the amended theorem at the concrete scenario. -/
theorem C1_level_resolution_amended_witness :
    resolveLevel cexA cexCache cexChain = (cexB.level, cexB.levelExclusive) :=
  (C1_level_resolution_amended cexA cexCache cexChain cexO cexB "B").1
    (by decide) (by decide)

/-- Claim C2: the duplicate-removal comprehensions of broadcast do not
deduplicate.  In general the comprehension returns its input unchanged
(the visited set only ever receives the module name sm, never a handler),
and concretely a handler held by two chain loggers is invoked twice in
both the normal pass and the bypass pass. -/
theorem C2_duplicates_kept (sm : String) (l : List Nat) :
    pyFilterDups sm l [] = l ∧
    buildNormalHandlers [] [[7], [7]] "mod" = [7, 7] ∧
    buildBypassHandlers [[9], [9]] "mod" = [9, 9] ∧
    List.count 7 (buildNormalHandlers [] [[7], [7]] "mod") = 2 := by
  refine ⟨?_, by decide, by decide, by decide⟩
  apply pyFilterDups_keeps_all
  intro x hx
  simp at hx

/-- Claim C3, counterexample: for a logger whose resolved policy is
exclusive at level INFO, a write broadcast (level -1) is suppressed by the
logger level filter, so the normal handler pass does not run. -/
theorem C3_write_suppressed_cex :
    resolveLevel cexExclusiveLogger [] [] =
      (cexExclusiveLogger.level, true) ∧
    levelFilterSuppresses true cexExclusiveLogger.level WRITE_LEVEL = true := by
  decide

/-- Claim C3, amended: a write message passes the logger level filter
whenever the resolved policy is non-exclusive and the resolved level is at
least -1 (which covers every defined level); when the resolved policy is
exclusive with a resolved level different from -1, the write message is
suppressed. -/
theorem C3_write_filter_amended (lvl : Int) :
    (WRITE_LEVEL ≤ lvl → levelFilterSuppresses false lvl WRITE_LEVEL = false) ∧
    (lvl ≠ WRITE_LEVEL → levelFilterSuppresses true lvl WRITE_LEVEL = true) := by
  constructor
  · intro h
    simp only [levelFilterSuppresses, WRITE_LEVEL] at *
    simp only [Bool.false_eq_true, if_false, decide_eq_false_iff_not, not_lt]
    exact h
  · intro h
    simp only [levelFilterSuppresses, WRITE_LEVEL] at *
    simp only [if_true, decide_eq_true_eq]
    omega

/-- Claim C3, witness for the amended theorem at resolved level INFO. -/
theorem C3_write_filter_amended_witness :
    levelFilterSuppresses false 3 WRITE_LEVEL = false ∧
    levelFilterSuppresses true 3 WRITE_LEVEL = true :=
  ⟨(C3_write_filter_amended 3).1 (by decide),
   (C3_write_filter_amended 3).2 (by decide)⟩

/-- Claim C4: get_file_thread never stores the thread it starts into
cached_threads, so cached_threads is invariant under get_file_thread and
two handle calls for the same path start two worker threads; the queue
half of the claim does hold (setdefault creates one queue per path). -/
theorem C4_new_thread_every_call (s : FileThreadState) (filename : String) :
    (get_file_thread filename s).cachedThreads = s.cachedThreads ∧
    (fileHandle "log.txt" (fileHandle "log.txt"
        { cachedQueues := [], cachedThreads := [], threadsStarted := 0 }
      )).threadsStarted = 2 ∧
    (fileHandle "log.txt" (fileHandle "log.txt"
        { cachedQueues := [], cachedThreads := [], threadsStarted := 0 }
      )).cachedQueues = ["log.txt"] := by
  refine ⟨?_, by decide, by decide⟩
  unfold get_file_thread
  split <;> rfl

/-- Claim C5: with max_cache_size 1, before any dump the deque bound and
FIFO eviction hold, and the dump result is a plain list; after the dump,
two further invokes leave two entries in the cache, violating the bound. -/
theorem C5_bound_lost_after_dump :
    (deferredInvoke [3] none
        (deferredInvoke [3] none (PyCache.deque (some 1) []) "a" 3)
        "b" 3).entries = [("b", 3)] ∧
    (deferredDump (deferredInvoke [3] none (PyCache.deque (some 1) []) "a" 3)).2
      = PyCache.plain [] ∧
    ((deferredInvoke [3] none (deferredInvoke [3] none
        (deferredDump (deferredInvoke [3] none (PyCache.deque (some 1) []) "a" 3)).2
        "b" 3) "c" 3).entries).length = 2 := by
  decide

/-- Claim C6, counterexample: in a pass over two handlers where the first
raises, the exception leaves the broadcast loop (the result carries the
raising handler) and the second handler is never invoked. -/
theorem C6_exception_propagates_cex :
    runHandlerPass [{ hid := 1, raises := true },
                    { hid := 2, raises := false }] = ([1], some 1) ∧
    (2 : Nat) ∉ [1] := by
  decide

/-- Claim C6, amended: neither the broadcast loop nor the handler call
operator catches exceptions from a handler action: the handlers before the
first raising handler run, the raising handler aborts the pass, the
exception propagates to the logging caller, and the remaining handlers are
not invoked. -/
theorem C6_exception_aborts_pass (pre post : List ExnHandler) (h : ExnHandler)
    (hpre : ∀ x ∈ pre, x.raises = false) (hr : h.raises = true) :
    runHandlerPass (pre ++ h :: post) =
      (pre.map ExnHandler.hid ++ [h.hid], some h.hid) := by
  induction pre with
  | nil => simp [runHandlerPass, hr]
  | cons a t ih =>
    have ha : a.raises = false := hpre a (List.mem_cons_self a t)
    have ht := ih (fun x hx => hpre x (List.mem_cons_of_mem a hx))
    simp [runHandlerPass, ha, ht]

/-- Claim C6, witness for the amended theorem on a concrete pass. -/
theorem C6_exception_aborts_pass_witness :
    runHandlerPass [{ hid := 0, raises := false },
                    { hid := 1, raises := true },
                    { hid := 2, raises := false }] = ([0, 1], some 1) :=
  C6_exception_aborts_pass [{ hid := 0, raises := false }]
    [{ hid := 2, raises := false }] { hid := 1, raises := true }
    (by decide) rfl

/-- Claim C7, counterexample: a Handler constructed without an explicit
level gets the level 100; with alwaysEvaluate false and levelExclusive
false its filter does NOT suppress a DEBUG message, and the per-level
action runs, contradicting the never-fires reading of the sentinel. -/
theorem C7_default_level_fires_cex :
    handlerInitLevel none = 100 ∧
    handlerSuppresses defaultHandlerConfig DEBUG = false ∧
    handlerActionRuns defaultHandlerConfig DEBUG = true := by
  decide

/-- Claim C7, amended: the default level 100 is a pass-everything
threshold, not a never-fires sentinel.  With alwaysEvaluate false and
levelExclusive false, the filter of a default-level handler passes every
level of the dispatch table, and the per-level action is invoked for each
of them. -/
theorem C7_default_level_amended (lvl : Int) (h : lvl ∈ verbMapKeys) :
    handlerSuppresses defaultHandlerConfig lvl = false ∧
    handlerActionRuns defaultHandlerConfig lvl = true := by
  simp only [verbMapKeys, List.mem_cons, List.mem_singleton,
    List.not_mem_nil, or_false] at h
  rcases h with rfl | rfl | rfl | rfl | rfl | rfl | rfl <;> decide

/-- Claim C7, witness for the amended theorem at DEBUG level. -/
theorem C7_default_level_amended_witness :
    handlerSuppresses defaultHandlerConfig 4 = false ∧
    handlerActionRuns defaultHandlerConfig 4 = true :=
  C7_default_level_amended 4 (by decide)

/-- Claim C8, counterexample: the binding in effect immediately before a
scope was 1 (a nested scenario, where an outer scope had already replaced
the root binding) while the module global root logger is 0; after a
normally completing inner scope the binding is 0, not 1.  And when the
body raises, the binding stays at the substituted logger 2: no restoration
happens at all. -/
theorem C8_restore_wrong_cex :
    (alternate_root 0 1 2 (fun b => (false, b))).2 = 0 ∧ (0 : Nat) ≠ 1 ∧
    alternate_root 0 0 2 (fun b => (true, b)) = (true, 2) := by
  refine ⟨rfl, by decide, rfl⟩

/-- Claim C8, amended: on a normal completion the scope sets the binding
to the module global root logger, regardless of the binding that was in
effect at entry (so nested scopes restore the original root, not the
immediately prior binding); when the body raises, the exception propagates
and no restoration is performed, the binding remaining whatever the body
left behind. -/
theorem C8_alternate_root_amended (rootGlobal binding newLogger b1 : Nat)
    (body : Nat → Bool × Nat) :
    (body newLogger = (false, b1) →
      alternate_root rootGlobal binding newLogger body = (false, rootGlobal)) ∧
    (body newLogger = (true, b1) →
      alternate_root rootGlobal binding newLogger body = (true, b1)) := by
  constructor <;> intro h <;> simp [alternate_root, h]

/-- Claim C8, witness for the amended theorem on a concrete scope. -/
theorem C8_alternate_root_amended_witness :
    alternate_root 5 1 2 (fun b => (false, b)) = (false, 5) :=
  (C8_alternate_root_amended 5 1 2 2 (fun b => (false, b))).1 rfl

/-- Claim C9, counterexample: a standalone logger with a formatter set and
no positional substitutions passes the raw message to its handler; the
formatter output is never produced. -/
theorem C9_formatter_skipped_cex :
    standaloneBroadcast [1] [] false id
      (some (fun m _ => "F:" ++ m)) "hello" INFO = [(1, "hello")] ∧
    ("hello" : String) ≠ "F:hello" := by
  constructor
  · rfl
  · decide

/-- Claim C9, amended: the standalone branch formats only when positional
substitutions are present; the logger formatter is never applied (the
result is independent of it), and every handler in handlers followed by
every handler in bypassHandlers is invoked with that message, without
consulting any enclosing-scope logger. -/
theorem C9_standalone_amended (handlers bypass : List Nat) (hasArgs : Bool)
    (fmtArgs : String → String)
    (formatter formatter2 : Option (String → Int → String))
    (msg : String) (lvl : Int) :
    standaloneBroadcast handlers bypass hasArgs fmtArgs formatter msg lvl
      = (handlers ++ bypass).map
          (fun h => (h, if hasArgs then fmtArgs msg else msg)) ∧
    standaloneBroadcast handlers bypass hasArgs fmtArgs formatter msg lvl
      = standaloneBroadcast handlers bypass hasArgs fmtArgs formatter2 msg lvl :=
  ⟨rfl, rfl⟩

/-- Claim C10: a DeferredHandler with a formatter formats exactly once, at
caching time.  Every entry of the cache after an invoke is either an entry
the cache already held or the once-formatted pair of the new message, and
the dump loop delivers cached entries verbatim (no further formatting)
whenever every cached level is in the dispatch table. -/
theorem C10_formatted_once (cls : List Int) (f : String → Int → String)
    (cache : PyCache) (m : String) (l : Int) (e : String × Int)
    (es : List (String × Int)) (hm : l ∈ cls)
    (he : e ∈ (deferredInvoke cls (some f) cache m l).entries)
    (hes : ∀ x ∈ es, x.2 ∈ verbMapKeys) :
    (e ∈ cache.entries ∨ e = (f m l, l)) ∧ (dumpDeliver es).1 = es := by
  refine ⟨?_, dumpDeliver_all_good es hes⟩
  unfold deferredInvoke at he
  rw [if_pos hm] at he
  cases cache with
  | deque mx es0 =>
    simp only [PyCache.entries] at he ⊢
    have := mem_dequeAppend he
    simpa [applyFormatter] using this
  | plain es0 =>
    simp only [PyCache.entries] at he ⊢
    rcases List.mem_append.mp he with h1 | h1
    · exact Or.inl h1
    · right
      simpa [applyFormatter] using List.mem_singleton.mp h1

/-- Claim C10, witness at a concrete handler and entry. -/
theorem C10_formatted_once_witness :
    (("x!", (3 : Int)) ∈ (PyCache.plain ([] : List (String × Int))).entries ∨
      ("x!", (3 : Int)) =
        ((fun (m : String) (_ : Int) => m ++ "!") "x" 3, (3 : Int))) ∧
    (dumpDeliver [("y", (4 : Int))]).1 = [("y", (4 : Int))] :=
  C10_formatted_once [3] (fun m _ => m ++ "!") (PyCache.plain []) "x" 3
    ("x!", 3) [("y", 4)] (by decide) (by decide) (by decide)

end Slog
